import Mathlib

/-!
Shallow embedding of `src/app/utils/photoOverlay.ts`.

The module has two stateless functions:
- `getPhotoOverlayParams`: converts a template's pixel-space photo placement
  into pixel and millimeter coordinates for a target physical card size;
- `verifyPhotoSource`: emits diagnostic lines describing a photo payload.

JavaScript numbers are modelled as rationals (ℚ); the arithmetic the module
performs (division by the fixed reference constants 153 and 244, then
multiplication by the target dimension, `Math.round` of a length divided by
1024) is exact on the inputs of interest. Console output is modelled as the
list of emitted lines, each tagged with its severity (`console.warn` vs
`console.log`). The external resolver `resolveTemplateDesign` from
`templateData.ts` is an opaque collaborator: the calculator is parametrized
over it, and over the opaque carrier type of a template's `front` field.
-/

namespace PhotoOverlay

/-- Fixed reference pixel width of the canonical card, `CARD_WIDTH_PX`. -/
def CARD_WIDTH_PX : ℚ := 153

/-- Fixed reference pixel height of the canonical card, `CARD_HEIGHT_PX`. -/
def CARD_HEIGHT_PX : ℚ := 244

/-- The photo shape tag of a resolved design: `'circle' | 'rounded' | 'square'`. -/
inductive PhotoShape where
  | circle
  | rounded
  | square
deriving DecidableEq, Repr

/-- Pixel position `{ x, y }` of the photo inside a resolved design. -/
structure PhotoPosition where
  x : ℚ
  y : ℚ
deriving DecidableEq, Repr

/-- Pixel size `{ width, height }` of the photo inside a resolved design. -/
structure PhotoSize where
  width : ℚ
  height : ℚ
deriving DecidableEq, Repr

/-- The part of a resolved `TemplateDesign` that `getPhotoOverlayParams`
reads: `photoPosition`, `photoSize`, `photoShape` and the optional
`showPhoto` flag (`none` models the flag being `undefined`). -/
structure TemplateDesign where
  photoPosition : PhotoPosition
  photoSize : PhotoSize
  photoShape : PhotoShape
  showPhoto : Option Bool
deriving DecidableEq, Repr

/-- A template, opaque except for its `front` design descriptor. -/
structure Template (Front : Type) where
  front : Front

/-- The `PhotoOverlayParams` record returned by `getPhotoOverlayParams`. -/
structure PhotoOverlayParams where
  leftPx : ℚ
  topPx : ℚ
  widthPx : ℚ
  heightPx : ℚ
  leftMM : ℚ
  topMM : ℚ
  widthMM : ℚ
  heightMM : ℚ
  shape : PhotoShape
  visible : Bool
deriving DecidableEq, Repr

/-- Embedding of `getPhotoOverlayParams(template, cardWidthMM, cardHeightMM)`, parametrized
over the external resolver `resolveTemplateDesign` applied to `template.front`. -/
def getPhotoOverlayParams {Front : Type}
    (resolveTemplateDesign : Front → TemplateDesign)
    (template : Template Front)
    (cardWidthMM cardHeightMM : ℚ) : PhotoOverlayParams :=
  let resolved := resolveTemplateDesign template.front
  let leftPx := resolved.photoPosition.x
  let topPx := resolved.photoPosition.y
  let widthPx := resolved.photoSize.width
  let heightPx := resolved.photoSize.height
  { leftPx := leftPx
    topPx := topPx
    widthPx := widthPx
    heightPx := heightPx
    leftMM := leftPx / CARD_WIDTH_PX * cardWidthMM
    topMM := topPx / CARD_HEIGHT_PX * cardHeightMM
    widthMM := widthPx / CARD_WIDTH_PX * cardWidthMM
    heightMM := heightPx / CARD_HEIGHT_PX * cardHeightMM
    shape := resolved.photoShape
    visible := decide (resolved.showPhoto ≠ some false)
      && decide (widthPx > 0) && decide (heightPx > 0) }

/-- One emitted console line: `console.warn` vs `console.log`. -/
inductive LogLine where
  | warn (line : String)
  | info (line : String)
deriving DecidableEq, Repr

/-- JavaScript `s.startsWith(pre)`, modelled as a prefix check on the
character sequence of the string. -/
def strStartsWith (s pre : String) : Bool :=
  pre.data.isPrefixOf s.data

/-- The check `photoBase64.startsWith('data:image/')`. -/
def isDataUrlOf (p : String) : Bool :=
  strStartsWith p "data:image/"

/-- The check `photoBase64.startsWith('data:image/png')`. -/
def isPNGOf (p : String) : Bool :=
  strStartsWith p "data:image/png"

/-- The size estimate `Math.round(photoBase64.length / 1024)`; `Math.round x`
is `⌊x + 1/2⌋`,
which is Mathlib's `round` on ℚ. -/
def sizeKBOf (p : String) : ℤ :=
  round ((p.length : ℚ) / 1024)

/-- Embedding of `verifyPhotoSource(employeeName, photoBase64, templateName)`. The
`string | undefined` payload is an `Option String`; the guard
`!photoBase64` is true for `undefined` and for the empty string. The
result is the list of console lines the call emits. -/
def verifyPhotoSource (employeeName : String) (photoBase64 : Option String)
    (templateName : String) : List LogLine :=
  match photoBase64 with
  | none =>
      [LogLine.warn ("[PHOTO-VERIFY] " ++ employeeName
        ++ ": NO PHOTO — export will have blank photo area")]
  | some p =>
      if p = "" then
        [LogLine.warn ("[PHOTO-VERIFY] " ++ employeeName
          ++ ": NO PHOTO — export will have blank photo area")]
      else
        let isDataUrl := isDataUrlOf p
        let isPNG := isPNGOf p
        let sizeKB := sizeKBOf p
        [LogLine.info ("[PHOTO-VERIFY] " ++ employeeName ++ ":"),
         LogLine.info ("  ├─ Template: " ++ templateName),
         LogLine.info ("  ├─ Is data URL: " ++ toString isDataUrl),
         LogLine.info ("  ├─ Format: "
           ++ (if isPNG then "PNG (supports transparency)" else "JPEG/other")),
         LogLine.info ("  ├─ Size: " ++ toString sizeKB ++ " KB"),
         LogLine.info ("  └─ Source: "
           ++ (if isDataUrl then "PROCESSED (bg-removed + cropped)"
               else "⚠️ RAW URL — possible bug"))]

/-- C1: for every template whose front design the resolver maps to pixel
position (x, y) and pixel size (width, height), and every target width w and
height h in millimeters, the overlay satisfies leftMM = x / 153 * w,
topMM = y / 244 * h, widthMM = width / 153 * w, heightMM = height / 244 * h,
with 153 and 244 the fixed reference pixel dimensions. -/
theorem mm_fields_are_linear_rescale {Front : Type}
    (resolveTemplateDesign : Front → TemplateDesign) (T : Template Front)
    (w h : ℚ) :
    (getPhotoOverlayParams resolveTemplateDesign T w h).leftMM
        = (resolveTemplateDesign T.front).photoPosition.x / 153 * w ∧
    (getPhotoOverlayParams resolveTemplateDesign T w h).topMM
        = (resolveTemplateDesign T.front).photoPosition.y / 244 * h ∧
    (getPhotoOverlayParams resolveTemplateDesign T w h).widthMM
        = (resolveTemplateDesign T.front).photoSize.width / 153 * w ∧
    (getPhotoOverlayParams resolveTemplateDesign T w h).heightMM
        = (resolveTemplateDesign T.front).photoSize.height / 244 * h :=
  ⟨rfl, rfl, rfl, rfl⟩

/-- C2: the visible field is true iff the resolved showPhoto flag is not
explicitly false, the resolved pixel width is strictly positive, and the
resolved pixel height is strictly positive. -/
theorem visible_iff {Front : Type}
    (resolveTemplateDesign : Front → TemplateDesign) (T : Template Front)
    (w h : ℚ) :
    (getPhotoOverlayParams resolveTemplateDesign T w h).visible = true ↔
      ((resolveTemplateDesign T.front).showPhoto ≠ some false
        ∧ 0 < (resolveTemplateDesign T.front).photoSize.width
        ∧ 0 < (resolveTemplateDesign T.front).photoSize.height) := by
  simp [getPhotoOverlayParams, and_assoc]

/-- C3: the pixel fields returned are exactly the resolved design's position
and size values, and the shape field equals the resolved photoShape. -/
theorem pixel_and_shape_passthrough {Front : Type}
    (resolveTemplateDesign : Front → TemplateDesign) (T : Template Front)
    (w h : ℚ) :
    (getPhotoOverlayParams resolveTemplateDesign T w h).leftPx
        = (resolveTemplateDesign T.front).photoPosition.x ∧
    (getPhotoOverlayParams resolveTemplateDesign T w h).topPx
        = (resolveTemplateDesign T.front).photoPosition.y ∧
    (getPhotoOverlayParams resolveTemplateDesign T w h).widthPx
        = (resolveTemplateDesign T.front).photoSize.width ∧
    (getPhotoOverlayParams resolveTemplateDesign T w h).heightPx
        = (resolveTemplateDesign T.front).photoSize.height ∧
    (getPhotoOverlayParams resolveTemplateDesign T w h).shape
        = (resolveTemplateDesign T.front).photoShape :=
  ⟨rfl, rfl, rfl, rfl, rfl⟩

/-- C4: doubling both target dimensions exactly doubles the four millimeter
fields and leaves the four pixel fields unchanged. -/
theorem scaling_linearity {Front : Type}
    (resolveTemplateDesign : Front → TemplateDesign) (T : Template Front)
    (w h : ℚ) :
    (getPhotoOverlayParams resolveTemplateDesign T (2 * w) (2 * h)).leftMM
        = 2 * (getPhotoOverlayParams resolveTemplateDesign T w h).leftMM ∧
    (getPhotoOverlayParams resolveTemplateDesign T (2 * w) (2 * h)).topMM
        = 2 * (getPhotoOverlayParams resolveTemplateDesign T w h).topMM ∧
    (getPhotoOverlayParams resolveTemplateDesign T (2 * w) (2 * h)).widthMM
        = 2 * (getPhotoOverlayParams resolveTemplateDesign T w h).widthMM ∧
    (getPhotoOverlayParams resolveTemplateDesign T (2 * w) (2 * h)).heightMM
        = 2 * (getPhotoOverlayParams resolveTemplateDesign T w h).heightMM ∧
    (getPhotoOverlayParams resolveTemplateDesign T (2 * w) (2 * h)).leftPx
        = (getPhotoOverlayParams resolveTemplateDesign T w h).leftPx ∧
    (getPhotoOverlayParams resolveTemplateDesign T (2 * w) (2 * h)).topPx
        = (getPhotoOverlayParams resolveTemplateDesign T w h).topPx ∧
    (getPhotoOverlayParams resolveTemplateDesign T (2 * w) (2 * h)).widthPx
        = (getPhotoOverlayParams resolveTemplateDesign T w h).widthPx ∧
    (getPhotoOverlayParams resolveTemplateDesign T (2 * w) (2 * h)).heightPx
        = (getPhotoOverlayParams resolveTemplateDesign T w h).heightPx := by
  refine ⟨?_, ?_, ?_, ?_, rfl, rfl, rfl, rfl⟩ <;>
    simp [getPhotoOverlayParams] <;> ring

/-- C8: a template resolving to position (10, 20), size (50, 80), shape
circle, showPhoto true, on a 54mm × 86mm target card, yields
leftMM = 10/153*54, topMM = 20/244*86, widthMM = 50/153*54,
heightMM = 80/244*86, shape circle, visible true. -/
theorem example_end_to_end :
    (getPhotoOverlayParams (fun d : TemplateDesign => d)
        (Template.mk ⟨⟨10, 20⟩, ⟨50, 80⟩, PhotoShape.circle, some true⟩)
        54 86).leftMM = 10 / 153 * 54 ∧
    (getPhotoOverlayParams (fun d : TemplateDesign => d)
        (Template.mk ⟨⟨10, 20⟩, ⟨50, 80⟩, PhotoShape.circle, some true⟩)
        54 86).topMM = 20 / 244 * 86 ∧
    (getPhotoOverlayParams (fun d : TemplateDesign => d)
        (Template.mk ⟨⟨10, 20⟩, ⟨50, 80⟩, PhotoShape.circle, some true⟩)
        54 86).widthMM = 50 / 153 * 54 ∧
    (getPhotoOverlayParams (fun d : TemplateDesign => d)
        (Template.mk ⟨⟨10, 20⟩, ⟨50, 80⟩, PhotoShape.circle, some true⟩)
        54 86).heightMM = 80 / 244 * 86 ∧
    (getPhotoOverlayParams (fun d : TemplateDesign => d)
        (Template.mk ⟨⟨10, 20⟩, ⟨50, 80⟩, PhotoShape.circle, some true⟩)
        54 86).shape = PhotoShape.circle ∧
    (getPhotoOverlayParams (fun d : TemplateDesign => d)
        (Template.mk ⟨⟨10, 20⟩, ⟨50, 80⟩, PhotoShape.circle, some true⟩)
        54 86).visible = true := by
  refine ⟨rfl, rfl, rfl, rfl, rfl, ?_⟩
  simp [getPhotoOverlayParams]

/-- C9: when the resolved showPhoto flag is absent (undefined) and the
resolved pixel width and height are both strictly positive, the overlay is
visible: only the literal value false hides the photo. -/
theorem visible_when_showPhoto_undefined {Front : Type}
    (resolveTemplateDesign : Front → TemplateDesign) (T : Template Front)
    (w h : ℚ)
    (hshow : (resolveTemplateDesign T.front).showPhoto = none)
    (hw : 0 < (resolveTemplateDesign T.front).photoSize.width)
    (hh : 0 < (resolveTemplateDesign T.front).photoSize.height) :
    (getPhotoOverlayParams resolveTemplateDesign T w h).visible = true := by
  simp [getPhotoOverlayParams, hshow, hw, hh]

/-- C9 witness: a concrete design with showPhoto absent and positive pixel
dimensions is visible. -/
theorem visible_when_showPhoto_undefined_witness :
    (getPhotoOverlayParams (fun d : TemplateDesign => d)
        (Template.mk ⟨⟨1, 2⟩, ⟨3, 4⟩, PhotoShape.square, none⟩)
        1 1).visible = true :=
  visible_when_showPhoto_undefined (fun d : TemplateDesign => d)
    (Template.mk ⟨⟨1, 2⟩, ⟨3, 4⟩, PhotoShape.square, none⟩) 1 1
    rfl (by norm_num) (by norm_num)

/-- C10: the non-millimeter fields (leftPx, topPx, widthPx, heightPx, shape,
visible) do not depend on the caller-supplied millimeter targets. -/
theorem non_mm_fields_independent_of_targets {Front : Type}
    (resolveTemplateDesign : Front → TemplateDesign) (T : Template Front)
    (w1 h1 w2 h2 : ℚ) :
    (getPhotoOverlayParams resolveTemplateDesign T w1 h1).leftPx
        = (getPhotoOverlayParams resolveTemplateDesign T w2 h2).leftPx ∧
    (getPhotoOverlayParams resolveTemplateDesign T w1 h1).topPx
        = (getPhotoOverlayParams resolveTemplateDesign T w2 h2).topPx ∧
    (getPhotoOverlayParams resolveTemplateDesign T w1 h1).widthPx
        = (getPhotoOverlayParams resolveTemplateDesign T w2 h2).widthPx ∧
    (getPhotoOverlayParams resolveTemplateDesign T w1 h1).heightPx
        = (getPhotoOverlayParams resolveTemplateDesign T w2 h2).heightPx ∧
    (getPhotoOverlayParams resolveTemplateDesign T w1 h1).shape
        = (getPhotoOverlayParams resolveTemplateDesign T w2 h2).shape ∧
    (getPhotoOverlayParams resolveTemplateDesign T w1 h1).visible
        = (getPhotoOverlayParams resolveTemplateDesign T w2 h2).visible :=
  ⟨rfl, rfl, rfl, rfl, rfl, rfl⟩

/-- C5: with an absent payload (undefined or empty string) the verifier emits
exactly one warning line, containing the subject name and the text
"NO PHOTO", and nothing else — no informational block. -/
theorem absent_payload_single_warning (employeeName templateName : String)
    (photoBase64 : Option String)
    (habsent : photoBase64 = none ∨ photoBase64 = some "") :
    verifyPhotoSource employeeName photoBase64 templateName
        = [LogLine.warn ("[PHOTO-VERIFY] " ++ employeeName
            ++ ": NO PHOTO — export will have blank photo area")] ∧
    (∃ pre post : String,
      "[PHOTO-VERIFY] " ++ employeeName
          ++ ": NO PHOTO — export will have blank photo area"
        = pre ++ employeeName ++ post) ∧
    (∃ pre post : String,
      "[PHOTO-VERIFY] " ++ employeeName
          ++ ": NO PHOTO — export will have blank photo area"
        = pre ++ "NO PHOTO" ++ post) := by
  refine ⟨?_,
    ⟨"[PHOTO-VERIFY] ", ": NO PHOTO — export will have blank photo area", rfl⟩,
    ⟨"[PHOTO-VERIFY] " ++ employeeName ++ ": ",
      " — export will have blank photo area", by simp [String.append_assoc]⟩⟩
  rcases habsent with h | h <;> subst h <;> rfl

/-- C5 witness: payload undefined for subject "Alice" emits exactly the one
warning line naming "Alice" and "NO PHOTO". -/
theorem absent_payload_single_warning_witness :
    verifyPhotoSource "Alice" none "Modern"
        = [LogLine.warn
            "[PHOTO-VERIFY] Alice: NO PHOTO — export will have blank photo area"] :=
  ((absent_payload_single_warning "Alice" "Modern" none (Or.inl rfl)).1).trans
    (by rfl)

/-- C6: a non-empty payload is classified as embedded image data exactly when
it starts with "data:image/", as PNG exactly when it starts with
"data:image/png", its size estimate is the string length divided by 1024
rounded to the nearest integer, and the provenance line reports PROCESSED
exactly when it is a data URL and the raw-URL warning otherwise. -/
theorem nonempty_payload_classification (employeeName templateName p : String)
    (hp : p ≠ "") :
    verifyPhotoSource employeeName (some p) templateName
      = [LogLine.info ("[PHOTO-VERIFY] " ++ employeeName ++ ":"),
         LogLine.info ("  ├─ Template: " ++ templateName),
         LogLine.info ("  ├─ Is data URL: "
           ++ toString (strStartsWith p "data:image/")),
         LogLine.info ("  ├─ Format: "
           ++ (if strStartsWith p "data:image/png"
               then "PNG (supports transparency)" else "JPEG/other")),
         LogLine.info ("  ├─ Size: "
           ++ toString (round ((p.length : ℚ) / 1024)) ++ " KB"),
         LogLine.info ("  └─ Source: "
           ++ (if strStartsWith p "data:image/"
               then "PROCESSED (bg-removed + cropped)"
               else "⚠️ RAW URL — possible bug"))] := by
  simp [verifyPhotoSource, hp, isDataUrlOf, isPNGOf, sizeKBOf]

/-- C6 witness: "data:image/png;base64,AAAA" yields size estimate 0 KB,
format PNG, provenance PROCESSED; "https://example.com/photo.jpg" yields
not-a-data-URL, format JPEG/other, and the raw-URL warning. -/
theorem nonempty_payload_classification_witness :
    verifyPhotoSource "Bob" (some "data:image/png;base64,AAAA") "Modern"
      = [LogLine.info "[PHOTO-VERIFY] Bob:",
         LogLine.info "  ├─ Template: Modern",
         LogLine.info "  ├─ Is data URL: true",
         LogLine.info "  ├─ Format: PNG (supports transparency)",
         LogLine.info "  ├─ Size: 0 KB",
         LogLine.info "  └─ Source: PROCESSED (bg-removed + cropped)"] ∧
    verifyPhotoSource "Bob" (some "https://example.com/photo.jpg") "Modern"
      = [LogLine.info "[PHOTO-VERIFY] Bob:",
         LogLine.info "  ├─ Template: Modern",
         LogLine.info "  ├─ Is data URL: false",
         LogLine.info "  ├─ Format: JPEG/other",
         LogLine.info "  ├─ Size: 0 KB",
         LogLine.info "  └─ Source: ⚠️ RAW URL — possible bug"] := by
  constructor
  · rw [nonempty_payload_classification "Bob" "Modern"
      "data:image/png;base64,AAAA" (by decide)]
    have hs : round ((("data:image/png;base64,AAAA").length : ℚ) / 1024)
        = 0 := by
      have hlen : ("data:image/png;base64,AAAA").length = 26 := rfl
      rw [hlen]
      norm_num [round_eq]
    rw [hs]
    decide
  · rw [nonempty_payload_classification "Bob" "Modern"
      "https://example.com/photo.jpg" (by decide)]
    have hs : round ((("https://example.com/photo.jpg").length : ℚ) / 1024)
        = 0 := by
      have hlen : ("https://example.com/photo.jpg").length = 29 := rfl
      rw [hlen]
      norm_num [round_eq]
    rw [hs]
    decide

/-- C7: the verifier is total — for every subject name, payload (present or
absent) and template name it completes with diagnostic output only: either
the single warning line, or, for a present non-empty payload, the six-line
informational block whose provenance line falls to the raw-URL default
branch whenever the embedded-image-data check fails. -/
theorem verifier_total (employeeName templateName : String)
    (photoBase64 : Option String) :
    (∃ w, verifyPhotoSource employeeName photoBase64 templateName
        = [LogLine.warn w]) ∨
    (∃ p s1 s2 s3 s4 s5,
      photoBase64 = some p ∧ p ≠ "" ∧
      verifyPhotoSource employeeName photoBase64 templateName
        = [LogLine.info s1, LogLine.info s2, LogLine.info s3,
           LogLine.info s4, LogLine.info s5,
           LogLine.info ("  └─ Source: "
             ++ (if isDataUrlOf p then "PROCESSED (bg-removed + cropped)"
                 else "⚠️ RAW URL — possible bug"))]) := by
  match photoBase64 with
  | none => exact Or.inl ⟨_, rfl⟩
  | some p =>
    by_cases hp : p = ""
    · subst hp
      exact Or.inl ⟨_, rfl⟩
    · refine Or.inr ⟨p, "[PHOTO-VERIFY] " ++ employeeName ++ ":",
        "  ├─ Template: " ++ templateName,
        "  ├─ Is data URL: " ++ toString (isDataUrlOf p),
        "  ├─ Format: "
          ++ (if isPNGOf p then "PNG (supports transparency)"
              else "JPEG/other"),
        "  ├─ Size: " ++ toString (sizeKBOf p) ++ " KB",
        rfl, hp, ?_⟩
      simp [verifyPhotoSource, hp]

end PhotoOverlay
